import Mathlib

/-!
Verification of the CerCollettiva energy pipeline against its specification.

The Python sources are shallowly embedded:
* timestamps are UTC seconds since the epoch (`Nat`); energies are exact
  rationals (`ℚ`), which the concrete scenario values represent exactly;
* the Django cache is an association list from structured keys to values
  (`cache.get` finds the first binding, `cache.set` replaces, `cache.delete`
  removes); key strings built with `strftime` are represented by codes that
  are injective exactly when the corresponding format strings are;
* the ORM interval table is a list of rows, `get_or_create` + `save` is an
  upsert keyed on (device, start_time, interval_type);
* wall-clock time (`timezone.now()`) is an explicit `now` parameter.
Cache timeouts only bound entry lifetime; within a timeout window the model
treats entries as present, which is the regime all claims speak about.
`cache_enabled` and `strict_validation` keep their default value `True`.
-/

namespace CerCollettiva

/-- Interval types, `EnergyCalculatorBase.INTERVAL_TYPES`:
`'15MIN', '1H', '1D', '1M', '1Y'`. -/
inductive IType where
  | m15
  | h1
  | d1
  | mo1
  | y1
deriving DecidableEq, Repr

/-- `EnergyCalculatorBase.INTERVAL_MINUTES = 15`. -/
def INTERVAL_MINUTES : Nat := 15

/-- `EnergyCalculatorBase.MAX_INTERVAL_SECONDS = 1200` (20 minutes). -/
def MAX_INTERVAL_SECONDS : Nat := 1200

/-- `EnergyCalculatorBase.MAX_ENERGY_PER_INTERVAL = 100` (kWh). -/
def MAX_ENERGY_PER_INTERVAL : ℚ := 100

/-- `EnergyCalculatorBase.INTERVALS_PER_HOUR = 60 // 15 = 4`. -/
def INTERVALS_PER_HOUR : Nat := 4

/-- A row of the `EnergyInterval` table. -/
structure EnergyInterval where
  device : String
  startTime : Nat
  endTime : Nat
  itype : IType
  energyValue : ℚ
deriving DecidableEq, Repr

/-- Civil calendar (year, month) of an epoch-seconds timestamp, following the
standard days-from-civil inversion; used to embed `strftime('%Y%m')` and
`strftime('%Y')` cache-key fragments. -/
def yearMonthOf (t : Nat) : Nat × Nat :=
  let z := t / 86400 + 719468
  let era := z / 146097
  let doe := z % 146097
  let yoe := (doe - doe / 1460 + doe / 36524 - doe / 146096) / 365
  let doy := doe - (365 * yoe + yoe / 4 - yoe / 100)
  let mp := (5 * doy + 2) / 153
  let m := if mp < 10 then mp + 3 else mp - 9
  let y := yoe + era * 400
  (if m ≤ 2 then y + 1 else y, m)

/-- The date fragment of a cache key (`EnergyCalculatorCache._get_cache_key`):
`'%Y%m'` for `'1M'`, `'%Y'` for `'1Y'`, `'%Y%m%d%H%M'` (minute resolution)
otherwise.  Two timestamps produce the same fragment iff they produce the same
code here. -/
def dateCode (it : IType) (t : Nat) : Nat :=
  match it with
  | .mo1 => (yearMonthOf t).1 * 100 + (yearMonthOf t).2
  | .y1 => (yearMonthOf t).1
  | _ => t / 60

/-- Structured Django cache keys.  `lastMeas d` stands for the string
`"last_energy_measurement_{d}"` (`process_new_measurement`), and
`agg it d c` for `"{prefix(it)}{d}_{date_str}"` where the five prefixes are
pairwise distinct (`EnergyCalculatorBase._cache_prefixes`). -/
inductive CacheKey where
  | lastMeas (device : String)
  | agg (it : IType) (device : String) (code : Nat)
deriving DecidableEq, Repr

/-- Values stored in the Django cache by the calculator: the per-device last
measurement dict `{'timestamp': t, 'total_energy': e}`, or a cached energy
number. -/
inductive CacheVal where
  | reading (timestamp : Nat) (totalEnergy : ℚ)
  | qval (q : ℚ)
deriving DecidableEq, Repr

/-- The Django cache contents (within all timeouts). -/
abbrev Cache := List (CacheKey × CacheVal)

/-- `cache.get key`. -/
def cacheGet (c : Cache) (k : CacheKey) : Option CacheVal :=
  (c.find? (fun p => decide (p.1 = k))).map (fun p => p.2)

/-- `cache.set key value timeout`. -/
def cacheSet (c : Cache) (k : CacheKey) (v : CacheVal) : Cache :=
  (k, v) :: c.filter (fun p => !(decide (p.1 = k)))

/-- `cache.delete key`. -/
def cacheDel (c : Cache) (k : CacheKey) : Cache :=
  c.filter (fun p => !(decide (p.1 = k)))

/-- `EnergyCalculatorBase._validate_timestamp`: between `now - 2 years`
(`365*2` days) and `now`. -/
def validate_timestamp (now t : Nat) : Bool :=
  decide (now ≤ t + 365 * 2 * 86400) && decide (t ≤ now)

/-- `EnergyCalculatorBase._validate_energy_value`:
`0 <= energy <= MAX_ENERGY_PER_INTERVAL`. -/
def validate_energy_value (energy : ℚ) : Bool :=
  decide (0 ≤ energy) && decide (energy ≤ MAX_ENERGY_PER_INTERVAL)

/-- `EnergyCalculatorBase._validate_interval_type`: membership in
`INTERVAL_TYPES`, which `IType` enumerates exactly. -/
def validate_interval_type (_it : IType) : Bool := true

/-- `EnergyCalculatorBase._round_to_interval`: zero the seconds and floor the
minutes to a multiple of 15, i.e. floor to a 900-second boundary. -/
def round_to_interval (t : Nat) : Nat :=
  t / 900 * 900

/-- `EnergyInterval.objects.get_or_create(device_id, start_time, interval_type,
defaults={end_time, energy_value})` followed by
`interval.energy_value = energy; interval.save()` when the row existed. -/
def upsert_interval (ivs : List EnergyInterval) (device : String)
    (s e : Nat) (energy : ℚ) (it : IType) : List EnergyInterval :=
  if ivs.any (fun iv =>
      decide (iv.device = device) && decide (iv.startTime = s) && decide (iv.itype = it)) then
    ivs.map (fun iv =>
      if decide (iv.device = device) && decide (iv.startTime = s) && decide (iv.itype = it) then
        { iv with energyValue := energy }
      else iv)
  else
    ivs ++ [{ device := device, startTime := s, endTime := e, itype := it, energyValue := energy }]

/-- `EnergyCalculatorMeasurements._save_interval_energy`: validate, then
create-or-update the row; returns whether it saved. -/
def save_interval_energy (now : Nat) (device : String) (s e : Nat)
    (energy : ℚ) (it : IType) (ivs : List EnergyInterval) :
    Bool × List EnergyInterval :=
  if validate_timestamp now s && validate_timestamp now e
      && validate_interval_type it && validate_energy_value energy then
    (true, upsert_interval ivs device s e energy it)
  else
    (false, ivs)

/-- `EnergyCalculatorCache._invalidate_higher_caches`: delete the `'1H'`,
`'1D'`, `'1M'`, `'1Y'` keys built from the given (unnormalised) timestamp. -/
def invalidate_higher_caches (device : String) (t : Nat) (c : Cache) : Cache :=
  [IType.h1, IType.d1, IType.mo1, IType.y1].foldl
    (fun acc it => cacheDel acc (CacheKey.agg it device (dateCode it t))) c

/-- The calculator-visible state: Django cache plus the `EnergyInterval`
table. -/
structure CalcState where
  cache : Cache
  intervals : List EnergyInterval
deriving DecidableEq, Repr

/-- The body of `process_new_measurement` handling an existing baseline
`(lastT, lastE)`: accept the delta only if the elapsed time is at most
`MAX_INTERVAL_SECONDS` and the delta lies in `[0, MAX_ENERGY_PER_INTERVAL]`,
then persist a `'15MIN'` interval starting at the previous timestamp rounded
down to 15 minutes and, if it saved, invalidate the higher caches. -/
def process_existing_baseline (now : Nat) (device : String) (timestamp : Nat)
    (total_energy : ℚ) (lastT : Nat) (lastE : ℚ) (st : CalcState) : CalcState :=
  if (timestamp : Int) - (lastT : Int) ≤ (MAX_INTERVAL_SECONDS : Int) then
    if 0 ≤ total_energy - lastE ∧ total_energy - lastE ≤ MAX_ENERGY_PER_INTERVAL then
      let res := save_interval_energy now device (round_to_interval lastT)
        (round_to_interval lastT + 60 * INTERVAL_MINUTES)
        (total_energy - lastE) IType.m15 st.intervals
      if res.1 then
        ⟨invalidate_higher_caches device (round_to_interval lastT) st.cache, res.2⟩
      else
        ⟨st.cache, res.2⟩
    else st
  else st

/-- `EnergyCalculatorMeasurements.process_new_measurement`: validate the input,
run the delta logic against the `last_energy_measurement_{device}` baseline if
one exists, and finally (re)write the baseline with the new reading. -/
def process_new_measurement (now : Nat) (device : String) (timestamp : Nat)
    (total_energy : ℚ) (st : CalcState) : CalcState :=
  if !(validate_timestamp now timestamp) then st
  else if !(validate_energy_value total_energy) then st
  else
    let st1 : CalcState :=
      match cacheGet st.cache (CacheKey.lastMeas device) with
      | some (CacheVal.reading lastT lastE) =>
        process_existing_baseline now device timestamp total_energy lastT lastE st
      | _ => st
    ⟨cacheSet st1.cache (CacheKey.lastMeas device)
        (CacheVal.reading timestamp total_energy),
      st1.intervals⟩

/-- `EnergyCalculatorAggregations.calculate_hourly_energy`: serve the `'1H'`
cache entry if present; otherwise sum the device's `'15MIN'` rows with
`start_time >= hour_start` and `end_time < hour_end`, and cache the total only
when at least `INTERVALS_PER_HOUR` such rows exist. -/
def calculate_hourly_energy (device : String) (hourT : Nat) (st : CalcState) :
    ℚ × CalcState :=
  let hour_start := hourT / 3600 * 3600
  let hour_end := hour_start + 3600
  let key := CacheKey.agg IType.h1 device (dateCode IType.h1 hour_start)
  match cacheGet st.cache key with
  | some (CacheVal.qval q) => (q, st)
  | _ =>
    let children := st.intervals.filter (fun iv =>
      decide (iv.device = device) && decide (hour_start ≤ iv.startTime)
        && decide (iv.endTime < hour_end) && decide (iv.itype = IType.m15))
    let total_energy := (children.map (fun iv => iv.energyValue)).sum
    if children.length < INTERVALS_PER_HOUR then
      (total_energy, st)
    else
      let st2 : CalcState := { st with cache := cacheSet st.cache key (CacheVal.qval total_energy) }
      (total_energy, st2)

/-- A JSON value as seen by the handlers, carrying what Python `float(·)`
would make of it: numbers convert, strings convert iff they spell a number
(the string constructor carries that outcome), booleans map to 0/1, `null`
and compound values raise. -/
inductive Json where
  | num (q : ℚ)
  | str (asFloat : Option ℚ)
  | boolv (b : Bool)
  | null
  | comp
deriving DecidableEq, Repr

/-- A decoded JSON object payload. -/
abbrev Payload := List (String × Json)

/-- `payload.get(key)` (first binding wins). -/
def pget (p : Payload) (k : String) : Option Json :=
  (p.find? (fun kv => decide (kv.1 = k))).map (fun kv => kv.2)

/-- Python `float(value)`; `none` means `float` raises. -/
def pyFloat : Json → Option ℚ
  | .num q => some q
  | .str o => o
  | .boolv b => some (if b then 1 else 0)
  | .null => none
  | .comp => none

/-- `float(payload.get(key, default))` with a numeric default. -/
def getFloat (p : Payload) (k : String) (dflt : ℚ) : Option ℚ :=
  pyFloat ((pget p k).getD (Json.num dflt))

/-- Inbound message data as handed to `DeviceManager.process_message`: raw
bytes or text carry their JSON decoding outcome (`none` = not decodable as
JSON), a dict passes through, anything else is unsupported. -/
inductive MsgData where
  | bytes (parsed : Option Payload)
  | text (parsed : Option Payload)
  | dict (d : Payload)
  | other
deriving DecidableEq, Repr

/-- `DeviceManager._parse_payload`: decode defensively, returning `None` on
undecodable input (a decode failure on bytes surfaces as the same `(False,
unchanged)` outcome through the caller's exception handler). -/
def parse_payload : MsgData → Option Payload
  | .bytes o => o
  | .text o => o
  | .dict d => some d
  | .other => none

/-- An active-device configuration row (`DeviceConfiguration`); a missing or
empty `mqtt_topic_template` is `none`. -/
structure DeviceConfig where
  device_id : String
  mqtt_topic_template : Option String
  is_active : Bool
deriving DecidableEq, Repr

/-- Whether the first character list starts the second. -/
def leadsWith : List Char → List Char → Bool
  | [], _ => true
  | _ :: _, [] => false
  | a :: as, b :: bs => decide (a = b) && leadsWith as bs

/-- Python `s.replace(pat, rep)` on character lists: replace every
non-overlapping occurrence left to right; the fuel argument (instantiated
with the length of the subject) only makes the recursion structural. -/
def replaceList (pat rep : List Char) : Nat → List Char → List Char
  | _, [] => []
  | 0, s => s
  | fuel + 1, c :: rest =>
    if leadsWith pat (c :: rest) && !pat.isEmpty then
      rep ++ replaceList pat rep fuel (rest.drop (pat.length - 1))
    else
      c :: replaceList pat rep fuel rest

/-- Python `s.replace(pat, rep)`. -/
def pyReplace (s pat rep : String) : String :=
  String.mk (replaceList pat.toList rep.toList s.toList.length s.toList)

/-- `DeviceManager._find_device_for_topic`: linear scan of the active
configurations; a device matches when the topic equals its template's base
(template with `/status/em:0` removed) followed by `/status/em:0` or
`/status/emdata:0`. -/
def find_device_for_topic (cfgs : List DeviceConfig) (topic : String) :
    Option DeviceConfig :=
  (cfgs.filter (fun d => d.is_active)).find? (fun d =>
    match d.mqtt_topic_template with
    | none => false
    | some tmpl =>
      decide (topic = pyReplace tmpl "/status/em:0" "" ++ "/status/em:0")
        || decide (topic = pyReplace tmpl "/status/em:0" "" ++ "/status/emdata:0"))

/-- `DeviceMeasurement.measurement_type` values used by the manager. -/
inductive MType where
  | POWER
  | ENERGY
deriving DecidableEq, Repr

/-- A `DeviceMeasurementDetail` row (per-phase breakdown). -/
structure PhaseDetail where
  phase : String
  voltage : ℚ
  current : ℚ
  power : ℚ
  power_factor : ℚ
  frequency : ℚ
deriving DecidableEq, Repr

/-- A persisted `DeviceMeasurement` row, with its detail rows attached;
`power_factor` is nullable in the schema. -/
structure Measurement where
  device : String
  timestamp : Nat
  power : ℚ
  voltage : ℚ
  current : ℚ
  power_factor : Option ℚ
  energy_total : ℚ
  measurement_type : MType
  quality : String
  details : List PhaseDetail
deriving DecidableEq, Repr

/-- Keys the manager stores in the Django cache for deduplication:
`f"{topic}_{device_id}__{hash(str(payload))}"` (the payload hash is taken
injective) and `f"{device_id}_{timestamp}"`. -/
inductive DedupKey where
  | procMsg (topic : String) (device : String) (payload : Payload)
  | powerMsg (device : String) (timestamp : Nat)
deriving DecidableEq, Repr

/-- Association-list read (Python dict `.get`). -/
def alistGet {α : Type} (l : List (String × α)) (k : String) : Option α :=
  (l.find? (fun kv => decide (kv.1 = k))).map (fun kv => kv.2)

/-- Association-list write (Python dict assignment). -/
def alistSet {α : Type} (l : List (String × α)) (k : String) (v : α) :
    List (String × α) :=
  (k, v) :: l.filter (fun kv => !(decide (kv.1 = k)))

/-- The manager-visible state: dedup cache entries (within TTL), the
`_last_energy_values` dict, the persisted measurements, and the devices'
`last_seen` column. -/
structure ManagerState where
  dedup : List DedupKey
  last_energy_values : List (String × ℚ)
  measurements : List Measurement
  last_seen : List (String × Nat)
deriving DecidableEq, Repr

/-- `all(key in payload for key in [phase_voltage, phase_current,
phase_act_power])`. -/
def phase_keys_present (payload : Payload) (ph : String) : Bool :=
  (pget payload (ph ++ "_voltage")).isSome
    && (pget payload (ph ++ "_current")).isSome
    && (pget payload (ph ++ "_act_power")).isSome

/-- One `DeviceMeasurementDetail.objects.create(...)` for a phase whose keys
are present; `none` when a value cannot be coerced to a number (the DB save
raises). -/
def build_phase_detail (payload : Payload) (ph : String) : Option PhaseDetail :=
  match pyFloat ((pget payload (ph ++ "_voltage")).getD (Json.num 0)),
      pyFloat ((pget payload (ph ++ "_current")).getD (Json.num 0)),
      pyFloat ((pget payload (ph ++ "_act_power")).getD (Json.num 0)),
      pyFloat ((pget payload (ph ++ "_pf")).getD (Json.num 1)),
      pyFloat ((pget payload (ph ++ "_freq")).getD (Json.num 50)) with
  | some v, some c, some pw, some pf, some fr =>
    some { phase := ph, voltage := v, current := c, power := pw,
           power_factor := pf, frequency := fr }
  | _, _, _, _, _ => none

/-- `DeviceManager._create_phase_details` over phases `a`, `b`, `c`. -/
def create_phase_details (payload : Payload) : Option (List PhaseDetail) :=
  (["a", "b", "c"].filter (fun ph => phase_keys_present payload ph)).mapM
    (fun ph => build_phase_detail payload ph)

/-- `DeviceManager._handle_power_message`: per-(device, arrival second) dedup,
defensive numeric extraction, then one atomic transaction persisting a
`POWER`-type `GOOD` measurement with phase details and bumping `last_seen`;
a conversion failure raises, rolls back and yields `False`. -/
def handle_power_message (now : Nat) (cfg : DeviceConfig) (payload : Payload)
    (st : ManagerState) : Bool × ManagerState :=
  if DedupKey.powerMsg cfg.device_id now ∈ st.dedup then (true, st)
  else
    match getFloat payload "total_act_power" 0, getFloat payload "total_act" 0,
        getFloat payload "a_voltage" 0, getFloat payload "a_current" 0,
        getFloat payload "total_pf" 1, create_phase_details payload with
    | some power, some energy, some voltage, some current, some pf, some details =>
      (true,
        { st with
          measurements := st.measurements ++
            [{ device := cfg.device_id, timestamp := now, power := power,
               voltage := voltage, current := current, power_factor := some pf,
               energy_total := energy, measurement_type := MType.POWER,
               quality := "GOOD", details := details }],
          last_seen := alistSet st.last_seen cfg.device_id now,
          dedup := DedupKey.powerMsg cfg.device_id now :: st.dedup })
    | _, _, _, _, _, _ => (false, st)

/-- `DeviceManager._handle_energy_message`: read the cumulative Wh counter,
persist an `ENERGY`-type measurement holding the kWh delta only when a
previous value exists and `0 <= delta <= 100000` Wh, then always record the
new value and bump `last_seen`, returning `True`. -/
def handle_energy_message (now : Nat) (cfg : DeviceConfig) (payload : Payload)
    (st : ManagerState) : Bool × ManagerState :=
  match getFloat payload "total_act" 0 with
  | none => (false, st)
  | some current_energy_total =>
    let st1 : ManagerState :=
      match alistGet st.last_energy_values cfg.device_id with
      | some last_energy =>
        if 0 ≤ current_energy_total - last_energy
            ∧ current_energy_total - last_energy ≤ 100000 then
          { st with
            measurements := st.measurements ++
              [{ device := cfg.device_id, timestamp := now, power := 0,
                 voltage := 0, current := 0, power_factor := none,
                 energy_total := (current_energy_total - last_energy) / 1000,
                 measurement_type := MType.ENERGY, quality := "GOOD",
                 details := [] }] }
        else st
      | none => st
    (true,
      { st1 with
        last_energy_values := alistSet st1.last_energy_values cfg.device_id
          current_energy_total,
        last_seen := alistSet st1.last_seen cfg.device_id now })

/-- Python `pat in s` on strings: `pat` occurs as a contiguous substring. -/
def hasInfix (pat : List Char) : List Char → Bool
  | [] => leadsWith pat []
  | c :: rest => leadsWith pat (c :: rest) || hasInfix pat rest

/-- `DeviceManager.process_message`: resolve the device, decode the payload,
dedup on (topic, device, payload), route by topic substring to the power or
energy handler, and on success mark the dedup key and bump `last_seen`. -/
def process_message (cfgs : List DeviceConfig) (now : Nat) (st : ManagerState)
    (topic : String) (data : MsgData) : Bool × ManagerState :=
  match find_device_for_topic cfgs topic with
  | none => (false, st)
  | some cfg =>
    match parse_payload data with
    | none => (false, st)
    | some payload =>
      if payload.isEmpty then (false, st)
      else
        if DedupKey.procMsg topic cfg.device_id payload ∈ st.dedup then (true, st)
        else
          let hres :=
            if hasInfix "em:0".toList topic.toList then
              handle_power_message now cfg payload st
            else if hasInfix "emdata:0".toList topic.toList then
              handle_energy_message now cfg payload st
            else (false, st)
          if hres.1 then
            (true,
              { hres.2 with
                dedup := DedupKey.procMsg topic cfg.device_id payload :: hres.2.dedup,
                last_seen := alistSet hres.2.last_seen cfg.device_id now })
          else (false, hres.2)

/-- `CircuitBreaker.state` values (`"CLOSED"`, `"OPEN"`, `"HALF-OPEN"`). -/
inductive CBState where
  | CLOSED
  | OPEN
  | HALFOPEN
deriving DecidableEq, Repr

/-- `energy/mqtt/core.py` `CircuitBreaker`. -/
structure CircuitBreaker where
  failure_threshold : Nat
  reset_timeout : Nat
  failures : Nat
  last_failure_time : Option Nat
  state : CBState
deriving DecidableEq, Repr

/-- `CircuitBreaker.__init__(failure_threshold, reset_timeout)`. -/
def CircuitBreaker.init (failure_threshold reset_timeout : Nat) :
    CircuitBreaker :=
  { failure_threshold := failure_threshold, reset_timeout := reset_timeout,
    failures := 0, last_failure_time := none, state := CBState.CLOSED }

/-- `CircuitBreaker.record_failure`. -/
def record_failure (now : Nat) (cb : CircuitBreaker) : CircuitBreaker :=
  if cb.failures + 1 ≥ cb.failure_threshold then
    { cb with
      failures := cb.failures + 1
      last_failure_time := some now
      state := CBState.OPEN }
  else
    { cb with failures := cb.failures + 1, last_failure_time := some now }

/-- `CircuitBreaker.record_success`. -/
def record_success (cb : CircuitBreaker) : CircuitBreaker :=
  { cb with failures := 0, state := CBState.CLOSED }

/-- `CircuitBreaker.can_execute`; it mutates `state` on the OPEN→HALF-OPEN
transition so the updated breaker is returned too.  In the `OPEN` state
`last_failure_time` is always set (only `record_failure` opens the breaker);
the `none` fallback is unreachable. -/
def can_execute (now : Nat) (cb : CircuitBreaker) : Bool × CircuitBreaker :=
  match cb.state with
  | CBState.CLOSED => (true, cb)
  | CBState.OPEN =>
    match cb.last_failure_time with
    | some t =>
      if t + cb.reset_timeout < now then
        (true, { cb with state := CBState.HALFOPEN })
      else (false, cb)
    | none => (false, cb)
  | CBState.HALFOPEN => (true, cb)

/-- The `MeasurementData` dataclass (devices/base/device.py), restricted to
the scalar fields and the quality flag the claims are about; the wall-clock
timestamp, the per-phase dict and vendor extra data are not modelled.
Optional fields distinguish `None`. -/
structure MeasurementData where
  power : Option ℚ
  voltage : Option ℚ
  current : Option ℚ
  energy : Option ℚ
  power_factor : Option ℚ
  frequency : Option ℚ
  quality : String
deriving DecidableEq, Repr

/-- `BaseDevice._safe_float(value, default)`: `None` and inconvertible values
fall back to the default, nothing raises. -/
def safe_float (v : Option Json) (dflt : ℚ) : ℚ :=
  match v with
  | none => dflt
  | some j => (pyFloat j).getD dflt

/-- `ShellyEM.parse_message` (devices/vendors/shelly/em.py): all numeric
fields are coerced with `_safe_float` and the quality flag is the literal
`'GOOD'`, whatever the payload contains. -/
def shelly_em_parse_message (payload : Payload) : MeasurementData :=
  { power := some (safe_float (pget payload "power") 0),
    voltage := some (safe_float (pget payload "voltage") 0),
    current := some (safe_float (pget payload "current") 0),
    energy := some (safe_float (pget payload "total") 0),
    power_factor := some (safe_float (pget payload "pf") 1),
    frequency := some (safe_float (pget payload "freq") 50),
    quality := "GOOD" }

/-- `BaseMeter.extract_value(data, key, float)` with the default `None`:
missing keys, JSON `null` and inconvertible values give `none`. -/
def extract_value (payload : Payload) (k : String) : Option ℚ :=
  (pget payload k).bind pyFloat

/-- Python truthiness of an optional float, as used by
`all([power, voltage, current])`: `None` and `0.0` are falsy. -/
def truthy (o : Option ℚ) : Bool :=
  match o with
  | none => false
  | some q => decide (q ≠ 0)

/-- `BaseMeter.parse_measurement` (devices/base/meter.py): quality is `GOOD`
when `all([power, voltage, current])` holds under Python truthiness, else
`UNCERTAIN`; `energy` falls back to `0.0` and `frequency` to the dataclass
default `50.0`. -/
def base_meter_parse_measurement (payload : Payload) : MeasurementData :=
  { power := extract_value payload "power",
    voltage := extract_value payload "voltage",
    current := extract_value payload "current",
    energy := some ((extract_value payload "energy").getD 0),
    power_factor := extract_value payload "power_factor",
    frequency := some 50,
    quality := if truthy (extract_value payload "power")
        && truthy (extract_value payload "voltage")
        && truthy (extract_value payload "current") then "GOOD"
      else "UNCERTAIN" }

/-- C1: processing the spec scenario.  The first reading (cumulative
`100.0` kWh at `t0`) stores the baseline and persists nothing, as the claim
says; but the second reading (cumulative `105.0` kWh at `t0+15min`) is thrown
away by `_validate_energy_value`, which bounds the *cumulative* total by
`MAX_ENERGY_PER_INTERVAL = 100`, so no `5.0` kWh interval is ever persisted
and the whole state is left unchanged — contradicting the claimed scenario. -/
theorem c1_second_reading_rejected :
    process_new_measurement 1000000000 "D1" 999997500 100 ⟨[], []⟩ =
      ⟨[(CacheKey.lastMeas "D1", CacheVal.reading 999997500 100)], []⟩ ∧
    process_new_measurement 1000000000 "D1" 999998400 105
        ⟨[(CacheKey.lastMeas "D1", CacheVal.reading 999997500 100)], []⟩ =
      ⟨[(CacheKey.lastMeas "D1", CacheVal.reading 999997500 100)], []⟩ ∧
    validate_energy_value 105 = false := by
  refine ⟨by decide, by decide, by decide⟩

theorem cacheGet_set_self (c : Cache) (k : CacheKey) (v : CacheVal) :
    cacheGet (cacheSet c k v) k = some v := by
  unfold cacheGet cacheSet
  rw [List.find?_cons_of_pos]
  · rfl
  · simp

/-- C2 counterexample: a reading whose elapsed time (1800 s) exceeds
`MAX_INTERVAL_SECONDS` is rejected for interval purposes, yet the stored
baseline is nevertheless replaced by the rejected reading — the claim's
"baseline left unchanged" is false on the code. -/
theorem c2_baseline_advances_on_rejected_reading :
    process_new_measurement 1000000000 "D1" 999999300 100
        ⟨[(CacheKey.lastMeas "D1", CacheVal.reading 999997500 100)], []⟩ =
      ⟨[(CacheKey.lastMeas "D1", CacheVal.reading 999999300 100)], []⟩ ∧
    (MAX_INTERVAL_SECONDS : Int) < (999999300 : Int) - (999997500 : Int) := by
  refine ⟨by decide, by decide⟩

/-- C2 amended: the baseline is (re)written with the new (timestamp, value)
pair on *every* reading that passes input validation, whether or not the
interval bounds accepted it; only a reading failing input validation leaves
the state untouched. -/
theorem c2_baseline_update_rule (now : Nat) (device : String) (t : Nat)
    (total : ℚ) (st : CalcState) :
    (validate_timestamp now t = true → validate_energy_value total = true →
      cacheGet (process_new_measurement now device t total st).cache
          (CacheKey.lastMeas device) =
        some (CacheVal.reading t total)) ∧
    (validate_timestamp now t = false →
      process_new_measurement now device t total st = st) ∧
    (validate_energy_value total = false →
      process_new_measurement now device t total st = st) := by
  refine ⟨?_, ?_, ?_⟩
  · intro hv he
    unfold process_new_measurement
    rw [hv, he]
    simp only [Bool.not_true, Bool.false_eq_true, if_false]
    exact cacheGet_set_self _ _ _
  · intro hv
    unfold process_new_measurement
    rw [hv]
    simp
  · intro he
    unfold process_new_measurement
    rw [he]
    cases hv : validate_timestamp now t <;> simp

theorem c2_baseline_update_rule_witness :
    cacheGet (process_new_measurement 1000000000 "D1" 999999300 100
        ⟨[(CacheKey.lastMeas "D1", CacheVal.reading 999997500 100)], []⟩).cache
      (CacheKey.lastMeas "D1") = some (CacheVal.reading 999999300 100) :=
  (c2_baseline_update_rule 1000000000 "D1" 999999300 100
      ⟨[(CacheKey.lastMeas "D1", CacheVal.reading 999997500 100)], []⟩).1
    (by decide) (by decide)

theorem process_new_measurement_baseline (now : Nat) (device : String) (t : Nat)
    (total : ℚ) (st : CalcState) (lastT : Nat) (lastE : ℚ)
    (hv : validate_timestamp now t = true)
    (he : validate_energy_value total = true)
    (hb : cacheGet st.cache (CacheKey.lastMeas device) =
      some (CacheVal.reading lastT lastE)) :
    process_new_measurement now device t total st =
      ⟨cacheSet (process_existing_baseline now device t total lastT lastE st).cache
          (CacheKey.lastMeas device) (CacheVal.reading t total),
        (process_existing_baseline now device t total lastT lastE st).intervals⟩ := by
  unfold process_new_measurement
  rw [hv, he, hb]
  rfl

/-- C3 counterexample: a reading dated *before* the stored baseline
(elapsed = −300 s) still persists a 15-minute interval, because the code only
checks `time_diff <= MAX_INTERVAL_SECONDS` and never `0 <= time_diff` — the
claim's "if and only if 0 ≤ elapsed ≤ 1200" fails on the code. -/
theorem c3_negative_elapsed_interval_persisted :
    process_new_measurement 1000000000 "D1" 999997900 15
        ⟨[(CacheKey.lastMeas "D1", CacheVal.reading 999998200 10)], []⟩ =
      ⟨[(CacheKey.lastMeas "D1", CacheVal.reading 999997900 15)],
        [{ device := "D1", startTime := 999998100, endTime := 999999000,
           itype := IType.m15, energyValue := 5 }]⟩ ∧
    (999997900 : Int) - (999998200 : Int) < 0 := by
  refine ⟨?_, by decide⟩
  norm_num [process_new_measurement, process_existing_baseline, save_interval_energy,
    validate_timestamp, validate_energy_value, validate_interval_type, round_to_interval,
    upsert_interval, invalidate_higher_caches, dateCode, yearMonthOf, cacheGet, cacheSet,
    cacheDel, MAX_INTERVAL_SECONDS, MAX_ENERGY_PER_INTERVAL, INTERVAL_MINUTES]

/-- C3 amended: for a reading that passes input validation and has an existing
baseline `(lastT, lastE)`, a `'15MIN'` interval is upserted iff
`elapsed ≤ MAX_INTERVAL_SECONDS` (there is no lower bound on elapsed),
`0 ≤ delta ≤ MAX_ENERGY_PER_INTERVAL`, and both rounded interval bounds pass
timestamp validation; every interval so persisted starts at the last reading's
timestamp rounded down to 15 minutes and lasts exactly 15 minutes. -/
theorem c3_interval_persistence_rule (now : Nat) (device : String) (t : Nat)
    (total : ℚ) (st : CalcState) (lastT : Nat) (lastE : ℚ)
    (hb : cacheGet st.cache (CacheKey.lastMeas device) =
      some (CacheVal.reading lastT lastE))
    (hv : validate_timestamp now t = true)
    (he : validate_energy_value total = true) :
    (process_new_measurement now device t total st).intervals =
      if ((t : Int) - (lastT : Int) ≤ (MAX_INTERVAL_SECONDS : Int)
          ∧ 0 ≤ total - lastE ∧ total - lastE ≤ MAX_ENERGY_PER_INTERVAL
          ∧ validate_timestamp now (round_to_interval lastT) = true
          ∧ validate_timestamp now (round_to_interval lastT + 900) = true) then
        upsert_interval st.intervals device (round_to_interval lastT)
          (round_to_interval lastT + 900) (total - lastE) IType.m15
      else st.intervals := by
  rw [process_new_measurement_baseline now device t total st lastT lastE hv he hb]
  show (process_existing_baseline now device t total lastT lastE st).intervals = _
  unfold process_existing_baseline save_interval_energy
  by_cases h1 : (t : Int) - (lastT : Int) ≤ (MAX_INTERVAL_SECONDS : Int) <;>
    by_cases h2 : 0 ≤ total - lastE <;>
    by_cases h3 : total - lastE ≤ MAX_ENERGY_PER_INTERVAL <;>
    cases h4 : validate_timestamp now (round_to_interval lastT) <;>
    cases h5 : validate_timestamp now (round_to_interval lastT + 900) <;>
    simp [validate_energy_value, validate_interval_type, INTERVAL_MINUTES,
      h1, h2, h3, h4, h5]

theorem c3_interval_persistence_rule_witness :
    (process_new_measurement 1000000000 "D1" 999997900 15
        ⟨[(CacheKey.lastMeas "D1", CacheVal.reading 999998200 10)], []⟩).intervals =
      [{ device := "D1", startTime := 999998100, endTime := 999999000,
         itype := IType.m15, energyValue := 5 }] := by
  have h := c3_interval_persistence_rule 1000000000 "D1" 999997900 15
      ⟨[(CacheKey.lastMeas "D1", CacheVal.reading 999998200 10)], []⟩ 999998200 10
      (by decide) (by decide) (by decide)
  rw [h]
  norm_num [round_to_interval, validate_timestamp, upsert_interval,
    MAX_INTERVAL_SECONDS, MAX_ENERGY_PER_INTERVAL]

/-- C4: four consecutive valid 2.0 kWh quarter-hour intervals of the same
hour.  The aggregation filter `end_time__lt=hour_end` excludes the child
ending exactly on the hour boundary, so only 3 of the 4 children are summed:
the hourly total is 6.0 kWh instead of the claimed 8.0, and with 3 < 4
children the hour is never marked complete and nothing is cached. -/
theorem c4_fourth_quarter_excluded :
    calculate_hourly_energy "D1" 999997200
        ⟨[], [⟨"D1", 999997200, 999998100, IType.m15, 2⟩,
              ⟨"D1", 999998100, 999999000, IType.m15, 2⟩,
              ⟨"D1", 999999000, 999999900, IType.m15, 2⟩,
              ⟨"D1", 999999900, 1000000800, IType.m15, 2⟩]⟩ =
      (6, ⟨[], [⟨"D1", 999997200, 999998100, IType.m15, 2⟩,
                ⟨"D1", 999998100, 999999000, IType.m15, 2⟩,
                ⟨"D1", 999999000, 999999900, IType.m15, 2⟩,
                ⟨"D1", 999999900, 1000000800, IType.m15, 2⟩]⟩) := by
  norm_num [calculate_hourly_energy, cacheGet, cacheSet, dateCode,
    INTERVALS_PER_HOUR]

/-- C10: `calculate_hourly_energy` touches only the cache, never the interval
table; it writes to the cache only on a miss with at least
`INTERVALS_PER_HOUR` matching children; and on a miss with fewer children it
returns the partial sum and leaves the state unchanged. -/
theorem c10_partial_hours_never_cached (device : String) (hourT : Nat)
    (st : CalcState)
    (hwf : ∀ lastT lastE, cacheGet st.cache (CacheKey.agg IType.h1 device
      (dateCode IType.h1 (hourT / 3600 * 3600))) ≠
        some (CacheVal.reading lastT lastE)) :
    let hs := hourT / 3600 * 3600
    let key := CacheKey.agg IType.h1 device (dateCode IType.h1 hs)
    let children := st.intervals.filter (fun iv =>
      decide (iv.device = device) && decide (hs ≤ iv.startTime)
        && decide (iv.endTime < hs + 3600) && decide (iv.itype = IType.m15))
    ((calculate_hourly_energy device hourT st).2.intervals = st.intervals) ∧
    ((calculate_hourly_energy device hourT st).2.cache ≠ st.cache →
      cacheGet st.cache key = none ∧ INTERVALS_PER_HOUR ≤ children.length) ∧
    (cacheGet st.cache key = none → children.length < INTERVALS_PER_HOUR →
      calculate_hourly_energy device hourT st =
        ((children.map (fun iv => iv.energyValue)).sum, st)) := by
  simp only [calculate_hourly_energy]
  cases hkey : cacheGet st.cache
      (CacheKey.agg IType.h1 device (dateCode IType.h1 (hourT / 3600 * 3600))) with
  | none =>
    by_cases hlen : (st.intervals.filter (fun iv =>
        decide (iv.device = device) && decide (hourT / 3600 * 3600 ≤ iv.startTime)
          && decide (iv.endTime < hourT / 3600 * 3600 + 3600)
          && decide (iv.itype = IType.m15))).length < INTERVALS_PER_HOUR
    · simp [hkey, hlen]
    · simp [hkey, hlen]
      intro _
      exact Nat.le_of_not_lt hlen
  | some v =>
    cases v with
    | reading lastT lastE => exact absurd hkey (hwf lastT lastE)
    | qval q => simp [hkey]

theorem c10_partial_hours_never_cached_witness :
    calculate_hourly_energy "D1" 999997200
        ⟨[], [⟨"D1", 999998100, 999999000, IType.m15, 2⟩]⟩ =
      (2, ⟨[], [⟨"D1", 999998100, 999999000, IType.m15, 2⟩]⟩) := by
  have h := (c10_partial_hours_never_cached "D1" 999997200
      ⟨[], [⟨"D1", 999998100, 999999000, IType.m15, 2⟩]⟩
      (fun lastT lastE hcontra => Option.noConfusion hcontra)).2.2
    (by decide) (by decide)
  rw [h]
  norm_num

/-- C5: upserting a 15-minute interval at 10:15 fails to invalidate the
enclosing hour's cache entry.  `_invalidate_higher_caches` builds the `'1H'`
key from the raw interval timestamp with `'%Y%m%d%H%M'` (minutes kept), while
the hourly read/write key uses the minute-zero hour start, so the wrong key
is deleted: the stale pre-update hourly value (99) is still served by
`calculate_hourly_energy`, although recomputation from the stored intervals
would give 2. -/
theorem c5_stale_hourly_cache_served :
    (process_new_measurement 1000000000 "D1" 999999000 12
        ⟨[(CacheKey.lastMeas "D1", CacheVal.reading 999998100 10),
          (CacheKey.agg IType.h1 "D1" (dateCode IType.h1 999997200),
            CacheVal.qval 99)], []⟩).intervals =
      [⟨"D1", 999998100, 999999000, IType.m15, 2⟩] ∧
    cacheGet (process_new_measurement 1000000000 "D1" 999999000 12
        ⟨[(CacheKey.lastMeas "D1", CacheVal.reading 999998100 10),
          (CacheKey.agg IType.h1 "D1" (dateCode IType.h1 999997200),
            CacheVal.qval 99)], []⟩).cache
      (CacheKey.agg IType.h1 "D1" (dateCode IType.h1 999997200)) =
      some (CacheVal.qval 99) ∧
    (calculate_hourly_energy "D1" 999997200
      (process_new_measurement 1000000000 "D1" 999999000 12
        ⟨[(CacheKey.lastMeas "D1", CacheVal.reading 999998100 10),
          (CacheKey.agg IType.h1 "D1" (dateCode IType.h1 999997200),
            CacheVal.qval 99)], []⟩)).1 = 99 ∧
    (calculate_hourly_energy "D1" 999997200
      ⟨[], [⟨"D1", 999998100, 999999000, IType.m15, 2⟩]⟩).1 = 2 := by
  have hst1 : process_new_measurement 1000000000 "D1" 999999000 12
      ⟨[(CacheKey.lastMeas "D1", CacheVal.reading 999998100 10),
        (CacheKey.agg IType.h1 "D1" (dateCode IType.h1 999997200),
          CacheVal.qval 99)], []⟩ =
      ⟨[(CacheKey.lastMeas "D1", CacheVal.reading 999999000 12),
        (CacheKey.agg IType.h1 "D1" (dateCode IType.h1 999997200),
          CacheVal.qval 99)],
        [⟨"D1", 999998100, 999999000, IType.m15, 2⟩]⟩ := by
    norm_num [process_new_measurement, process_existing_baseline, save_interval_energy,
      validate_timestamp, validate_energy_value, validate_interval_type, round_to_interval,
      upsert_interval, invalidate_higher_caches, dateCode, yearMonthOf, cacheGet, cacheSet,
      cacheDel, MAX_INTERVAL_SECONDS, MAX_ENERGY_PER_INTERVAL, INTERVAL_MINUTES]
    decide
  rw [hst1]
  refine ⟨rfl, by decide, by decide, ?_⟩
  norm_num [calculate_hourly_energy, cacheGet, dateCode, INTERVALS_PER_HOUR]

/-- C9: an undecodable payload (malformed JSON as text or bytes) on any topic
makes `process_message` return `False` with the state completely untouched;
no exception escapes (the embedding is total). -/
theorem c9_malformed_json_dropped (cfgs : List DeviceConfig) (now : Nat)
    (st : ManagerState) (topic : String) :
    process_message cfgs now st topic (MsgData.text none) = (false, st) ∧
    process_message cfgs now st topic (MsgData.bytes none) = (false, st) := by
  cases hf : find_device_for_topic cfgs topic <;>
    simp [process_message, parse_payload, hf]

theorem process_message_dedup_hit (cfgs : List DeviceConfig) (now : Nat)
    (st : ManagerState) (topic : String) (data : MsgData) (cfg : DeviceConfig)
    (payload : Payload)
    (hf : find_device_for_topic cfgs topic = some cfg)
    (hp : parse_payload data = some payload)
    (hemp : payload.isEmpty = false)
    (hdup : DedupKey.procMsg topic cfg.device_id payload ∈ st.dedup) :
    process_message cfgs now st topic data = (true, st) := by
  simp [process_message, hf, hp, hemp, hdup]

theorem process_message_dedup_miss (cfgs : List DeviceConfig) (now : Nat)
    (st : ManagerState) (topic : String) (data : MsgData) (cfg : DeviceConfig)
    (payload : Payload)
    (hf : find_device_for_topic cfgs topic = some cfg)
    (hp : parse_payload data = some payload)
    (hemp : payload.isEmpty = false)
    (hdup : DedupKey.procMsg topic cfg.device_id payload ∉ st.dedup) :
    process_message cfgs now st topic data =
      (if (if hasInfix "em:0".toList topic.toList then
            handle_power_message now cfg payload st
          else if hasInfix "emdata:0".toList topic.toList then
            handle_energy_message now cfg payload st
          else (false, st)).1 then
        (true,
          { (if hasInfix "em:0".toList topic.toList then
                handle_power_message now cfg payload st
              else if hasInfix "emdata:0".toList topic.toList then
                handle_energy_message now cfg payload st
              else (false, st)).2 with
            dedup := DedupKey.procMsg topic cfg.device_id payload ::
              (if hasInfix "em:0".toList topic.toList then
                  handle_power_message now cfg payload st
                else if hasInfix "emdata:0".toList topic.toList then
                  handle_energy_message now cfg payload st
                else (false, st)).2.dedup,
            last_seen := alistSet
              (if hasInfix "em:0".toList topic.toList then
                  handle_power_message now cfg payload st
                else if hasInfix "emdata:0".toList topic.toList then
                  handle_energy_message now cfg payload st
                else (false, st)).2.last_seen cfg.device_id now })
      else
        (false,
          (if hasInfix "em:0".toList topic.toList then
              handle_power_message now cfg payload st
            else if hasInfix "emdata:0".toList topic.toList then
              handle_energy_message now cfg payload st
            else (false, st)).2)) := by
  simp [process_message, hf, hp, hemp, hdup]

/-- C6 counterexample: a first energy (`emdata:0`) reading for a fresh device
succeeds (it only records the baseline) and a redelivery within the TTL is
deduplicated — so the two deliveries of this (topic, payload) pair persist
*zero* measurements, not exactly one as claimed. -/
theorem c6_two_deliveries_zero_measurements :
    (process_message [⟨"dev1", some "VePro/POD1/dev1/status/em:0", true⟩] 100
        ⟨[], [], [], []⟩ "VePro/POD1/dev1/status/emdata:0"
        (MsgData.dict [("total_act", Json.num 5000)])).1 = true ∧
    (process_message [⟨"dev1", some "VePro/POD1/dev1/status/em:0", true⟩] 200
        (process_message [⟨"dev1", some "VePro/POD1/dev1/status/em:0", true⟩] 100
          ⟨[], [], [], []⟩ "VePro/POD1/dev1/status/emdata:0"
          (MsgData.dict [("total_act", Json.num 5000)])).2
        "VePro/POD1/dev1/status/emdata:0"
        (MsgData.dict [("total_act", Json.num 5000)])).1 = true ∧
    (process_message [⟨"dev1", some "VePro/POD1/dev1/status/em:0", true⟩] 200
        (process_message [⟨"dev1", some "VePro/POD1/dev1/status/em:0", true⟩] 100
          ⟨[], [], [], []⟩ "VePro/POD1/dev1/status/emdata:0"
          (MsgData.dict [("total_act", Json.num 5000)])).2
        "VePro/POD1/dev1/status/emdata:0"
        (MsgData.dict [("total_act", Json.num 5000)])).2.measurements.length = 0 := by
  refine ⟨by decide, by decide, by decide⟩

/-- C6 amended: whenever a dispatch of `(topic, data)` succeeds, dispatching
the same pair again while the dedup key is cached is a pure no-op returning
handled=true: the second delivery persists no additional measurement and
changes no state, so the two deliveries persist exactly what the first alone
persisted (one measurement for a power message, zero or one for an energy
message). -/
theorem c6_second_dispatch_is_noop (cfgs : List DeviceConfig) (now1 now2 : Nat)
    (st : ManagerState) (topic : String) (data : MsgData)
    (h : (process_message cfgs now1 st topic data).1 = true) :
    process_message cfgs now2 (process_message cfgs now1 st topic data).2 topic
        data =
      (true, (process_message cfgs now1 st topic data).2) := by
  cases hf : find_device_for_topic cfgs topic with
  | none => simp [process_message, hf] at h
  | some cfg =>
    cases hp : parse_payload data with
    | none => simp [process_message, hf, hp] at h
    | some payload =>
      cases hemp : payload.isEmpty with
      | true => simp [process_message, hf, hp, hemp] at h
      | false =>
        by_cases hdup : DedupKey.procMsg topic cfg.device_id payload ∈ st.dedup
        · rw [process_message_dedup_hit cfgs now1 st topic data cfg payload
            hf hp hemp hdup]
          exact process_message_dedup_hit cfgs now2 st topic data cfg payload
            hf hp hemp hdup
        · rw [process_message_dedup_miss cfgs now1 st topic data cfg payload
            hf hp hemp hdup] at h ⊢
          obtain ⟨b, sth, hhr⟩ :
              ∃ b sth, (if hasInfix "em:0".toList topic.toList then
                  handle_power_message now1 cfg payload st
                else if hasInfix "emdata:0".toList topic.toList then
                  handle_energy_message now1 cfg payload st
                else (false, st)) = (b, sth) := ⟨_, _, rfl⟩
          rw [hhr] at h ⊢
          cases b with
          | false => simp at h
          | true =>
            simp only [if_true]
            exact process_message_dedup_hit cfgs now2 _ topic data cfg payload
              hf hp hemp (List.mem_cons_self _ _)

theorem c6_second_dispatch_is_noop_witness :
    process_message [⟨"dev1", some "VePro/POD1/dev1/status/em:0", true⟩] 200
        (process_message [⟨"dev1", some "VePro/POD1/dev1/status/em:0", true⟩] 100
          ⟨[], [], [], []⟩ "VePro/POD1/dev1/status/em:0"
          (MsgData.dict [("total_act_power", Json.num 1500)])).2
        "VePro/POD1/dev1/status/em:0"
        (MsgData.dict [("total_act_power", Json.num 1500)]) =
      (true, (process_message [⟨"dev1", some "VePro/POD1/dev1/status/em:0", true⟩] 100
          ⟨[], [], [], []⟩ "VePro/POD1/dev1/status/em:0"
          (MsgData.dict [("total_act_power", Json.num 1500)])).2) :=
  c6_second_dispatch_is_noop [⟨"dev1", some "VePro/POD1/dev1/status/em:0", true⟩]
    100 200 ⟨[], [], [], []⟩ "VePro/POD1/dev1/status/em:0"
    (MsgData.dict [("total_act_power", Json.num 1500)]) (by decide)

/-- C7 counterexample: with the default threshold 3 and timeout 60 s, three
failures at `t=0` open the breaker; at `t=61` a first `can_execute` goes
half-open and returns true, but a second call with no success or failure
recorded in between *also* returns true (and changes nothing) — not the
claimed single half-open attempt. -/
theorem c7_halfopen_allows_repeated_calls :
    (can_execute 61 (record_failure 0 (record_failure 0 (record_failure 0
        (CircuitBreaker.init 3 60))))).1 = true ∧
    (can_execute 61 (can_execute 61 (record_failure 0 (record_failure 0
        (record_failure 0 (CircuitBreaker.init 3 60))))).2) =
      (true, (can_execute 61 (record_failure 0 (record_failure 0 (record_failure 0
        (CircuitBreaker.init 3 60))))).2) := by
  refine ⟨by decide, by decide⟩

/-- C7 amended: reaching the failure threshold opens the breaker;
while open, `can_execute` returns false until strictly more than the reset
timeout has elapsed since the last failure, then transitions to half-open and
returns true; in the half-open state *every* call returns true (not just one)
until a success closes the breaker or a further threshold-reaching failure
re-opens it. -/
theorem c7_breaker_behavior (cb : CircuitBreaker) (now t : Nat) :
    (cb.failure_threshold ≤ cb.failures + 1 →
      (record_failure now cb).state = CBState.OPEN ∧
      (record_failure now cb).last_failure_time = some now) ∧
    (cb.state = CBState.OPEN → cb.last_failure_time = some t →
      (¬ t + cb.reset_timeout < now → can_execute now cb = (false, cb)) ∧
      (t + cb.reset_timeout < now →
        can_execute now cb = (true, { cb with state := CBState.HALFOPEN }))) ∧
    (cb.state = CBState.HALFOPEN → can_execute now cb = (true, cb)) ∧
    (record_success cb).state = CBState.CLOSED ∧
    (record_success cb).failures = 0 := by
  refine ⟨?_, ?_, ?_, rfl, rfl⟩
  · intro hthr
    simp [record_failure, hthr]
  · intro hs hl
    constructor
    · intro hn
      simp [can_execute, hs, hl, hn]
    · intro hy
      simp [can_execute, hs, hl, hy]
  · intro hs
    simp [can_execute, hs]

theorem c7_breaker_behavior_witness :
    can_execute 61 ⟨3, 60, 3, some 0, CBState.OPEN⟩ =
      (true, ⟨3, 60, 3, some 0, CBState.HALFOPEN⟩) :=
  ((c7_breaker_behavior ⟨3, 60, 3, some 0, CBState.OPEN⟩ 61 0).2.1
    rfl rfl).2 (by decide)

/-- C8 counterexample: on an empty payload — power, voltage and current all
absent — the ShellyEM vendor parser still reports quality `GOOD`, where the
claim requires `UNCERTAIN`. -/
theorem c8_shelly_good_despite_missing_fields :
    (shelly_em_parse_message []).quality = "GOOD" ∧
    pget [] "power" = none ∧ pget [] "voltage" = none ∧
    pget [] "current" = none := by
  refine ⟨rfl, rfl, rfl, rfl⟩

/-- C8 amended: the ShellyEM vendor parser sets quality `GOOD`
unconditionally; the generic meter parser is the one discriminating, and it
sets `GOOD` exactly when power, voltage and current are all present, numeric
*and nonzero* (Python truthiness), `UNCERTAIN` in every other case. -/
theorem c8_quality_flags (payload : Payload) :
    (shelly_em_parse_message payload).quality = "GOOD" ∧
    ((base_meter_parse_measurement payload).quality = "GOOD" ↔
      (∃ q, extract_value payload "power" = some q ∧ q ≠ 0) ∧
      (∃ q, extract_value payload "voltage" = some q ∧ q ≠ 0) ∧
      (∃ q, extract_value payload "current" = some q ∧ q ≠ 0)) ∧
    ((base_meter_parse_measurement payload).quality = "GOOD" ∨
      (base_meter_parse_measurement payload).quality = "UNCERTAIN") := by
  refine ⟨rfl, ?_, ?_⟩
  · show (if truthy (extract_value payload "power")
        && truthy (extract_value payload "voltage")
        && truthy (extract_value payload "current") then "GOOD"
      else "UNCERTAIN") = "GOOD" ↔ _
    rcases hp : extract_value payload "power" with _ | qp <;>
      rcases hv : extract_value payload "voltage" with _ | qv <;>
      rcases hc : extract_value payload "current" with _ | qc <;>
      simp [truthy]
  · show (if truthy (extract_value payload "power")
        && truthy (extract_value payload "voltage")
        && truthy (extract_value payload "current") then "GOOD"
      else "UNCERTAIN") = "GOOD" ∨
      (if truthy (extract_value payload "power")
        && truthy (extract_value payload "voltage")
        && truthy (extract_value payload "current") then "GOOD"
      else "UNCERTAIN") = "UNCERTAIN"
    split_ifs <;> simp

end CerCollettiva
